import Mathlib

/-!
Shallow embedding of the deterministic-sandbox adapters of this repository:
the wasm export surface (`src/libs/quickjs-wasm-build/src/wasm/quickjs_wasm.c`)
and the native CLI harness (`src/tools/quickjs-native-harness/src/harness.c`).

The script engine itself (`JS_NewDeterministicRuntime`, `JS_Eval`,
`JS_RunGCCheckpoint`, `JS_InitDeterministicContext`, the DV codec,
`JS_HostCall`, ...) is not part of the two source files; its calls are
modelled by explicit oracle records whose fields stand for the outcome of
each engine call, and where the specification pins down an engine
behaviour that a claim depends on, a definition marked
`Modelled from the spec:` captures exactly that behaviour.
-/

/-- Sentinel gas budget meaning "unlimited".  Modelled from the spec: the gas
budget is "unsigned 64-bit, with a reserved sentinel meaning unlimited";
`JS_GAS_UNLIMITED` (declared in the engine headers, not under `src/`) is that
sentinel, taken as the maximal `uint64` value. -/
def JS_GAS_UNLIMITED : Nat := 2 ^ 64 - 1

/-- Sentinel return value of a host-call dispatcher.  Modelled from the spec:
"a distinguished TransportError sentinel (not a valid length)"; the constant
itself is declared in the engine headers, not under `src/`, and is taken as
the maximal `uint32` value, which is therefore excluded from the valid
request/response lengths. -/
def JS_HOST_CALL_TRANSPORT_ERROR : Nat := 2 ^ 32 - 1

/-- The three process-wide globals of the wasm adapter: `det_rt`, `det_ctx`
(modelled as "is the pointer non-NULL"), and `det_gas_limit`. -/
structure WasmGlobals where
  detRt : Bool
  detCtx : Bool
  detGasLimit : Nat
deriving DecidableEq, Repr

/-- `free_det_runtime` from `quickjs_wasm.c`: frees the context and runtime,
NULLs both globals and resets the recorded gas limit to the sentinel. -/
def free_det_runtime (_s : WasmGlobals) : WasmGlobals :=
  { detRt := false, detCtx := false, detGasLimit := JS_GAS_UNLIMITED }

/-- The wasm module's globals before any call: both pointers NULL. -/
def initialWasmGlobals : WasmGlobals :=
  { detRt := false, detCtx := false, detGasLimit := JS_GAS_UNLIMITED }

/-- `gas_used` from `quickjs_wasm.c`. -/
def gas_used (gasLimit gasRemaining : Nat) : Nat :=
  if gasLimit = JS_GAS_UNLIMITED then 0 else gasLimit - gasRemaining

/-- `format_with_gas` from `quickjs_wasm.c`, restricted to the `trace == NULL`
shape used by the deterministic entry points. -/
def format_with_gas (kind payload : String) (gasLimit gasRemaining : Nat) : String :=
  kind ++ " " ++ payload ++ " GAS remaining=" ++ toString gasRemaining ++
    " used=" ++ toString (gas_used gasLimit gasRemaining)

/-- `format_exception` from `quickjs_wasm.c` (trace-less shape): the pending
exception's message, or the fallback when `JS_ToCString` yields NULL, with the
gas suffix. -/
def format_exception (excMsg : Option String) (fallback : String)
    (gasLimit gasRemaining : Nat) : String :=
  format_with_gas "ERROR" (excMsg.getD fallback) gasLimit gasRemaining

/-- The `HEX` digit table shared by `hex32`/`hex_bytes` in `quickjs_wasm.c`. -/
def HEX_DIGITS : List Char := "0123456789abcdef".toList

/-- One nibble rendered through the `HEX` table. -/
def hexNibble (n : Nat) : Char := HEX_DIGITS.getD n '0'

/-- `hex_bytes` from `quickjs_wasm.c`: each byte `b` becomes
`HEX[(b >> 4) & 0x0f]` followed by `HEX[b & 0x0f]` (for a `uint8_t` the shift
and mask are `(b / 16) % 16` and `b % 16`).  The NULL-pointer and
malloc-failure returns have no counterpart on Lean lists. -/
def hex_bytes : List Nat → List Char
  | [] => []
  | b :: rest => hexNibble ((b / 16) % 16) :: hexNibble (b % 16) :: hex_bytes rest

/-- Case-insensitive comparison of two hex strings, as the spec requires for
the manifest hash ("case-insensitive hex compare"). -/
def hexEqCI (a b : List Char) : Bool :=
  a.map Char.toLower == b.map Char.toLower

/-- Modelled from the spec: `JS_InitDeterministicContext` (engine code not
under `src/`) "must match `manifestHash` exactly (case-insensitive hex
compare) or creation fails with a manifest-integrity error" when manifest
bytes are supplied.  `digest` is the engine's hex digest of the manifest
bytes, and `otherOk` stands for the remaining failure causes the spec lists
(malformed manifest, allocation failure, context-blob seeding). -/
def initDeterministicContextOk (digest : List Nat → List Char)
    (manifest : Option (List Nat)) (manifestHashHex : List Char)
    (otherOk : Bool) : Bool :=
  match manifest with
  | none => otherOk
  | some bytes => hexEqCI manifestHashHex (digest bytes) && otherOk

/-- Outcomes of the engine calls made by `qjs_det_init`.  `newRuntimeOk` is
`JS_NewDeterministicRuntime` (on failure no runtime or context is produced, so
the globals stay NULL); `setDispatcherOk` is `JS_SetHostCallDispatcher`;
`initOtherOk` feeds `initDeterministicContextOk`; the `ExcMsg`/`GasRemaining`
pairs are what `JS_GetException` / `JS_GetGasRemaining` yield inside
`format_exception` on the corresponding failure path; `gcOk` is the
post-initialization `JS_RunGCCheckpoint`. -/
structure InitEngine where
  newRuntimeOk : Bool
  setDispatcherOk : Bool
  initOtherOk : Bool
  initExcMsg : Option String
  initGasRemaining : Nat
  gcOk : Bool
  gcExcMsg : Option String
  gcGasRemaining : Nat
deriving Repr

/-- `qjs_det_init` from `quickjs_wasm.c`.  Frees any previous runtime, records
the gas limit, creates the runtime, registers the dispatcher, initializes the
deterministic context from the manifest, and forces a GC checkpoint; on every
failure after runtime creation it calls `free_det_runtime`.  Returns the new
globals and the error string (`none` = success, as the C returns NULL). -/
def qjs_det_init (digest : List Nat → List Char)
    (manifest : Option (List Nat)) (manifestHashHex : List Char)
    (gasLimit : Nat) (e : InitEngine) (s : WasmGlobals) :
    WasmGlobals × Option String :=
  let s1 := free_det_runtime s
  let s2 := { s1 with detGasLimit := gasLimit }
  if !e.newRuntimeOk then
    (s2, some "ERROR <init> GAS remaining=0 used=0")
  else
    let s3 := { s2 with detRt := true, detCtx := true }
    if !e.setDispatcherOk then
      (free_det_runtime s3, some "ERROR <host dispatcher> GAS remaining=0 used=0")
    else if !(initDeterministicContextOk digest manifest manifestHashHex e.initOtherOk) then
      (free_det_runtime s3,
        some (format_exception e.initExcMsg "<init>" gasLimit e.initGasRemaining))
    else if !e.gcOk then
      (free_det_runtime s3,
        some (format_exception e.gcExcMsg "<gc checkpoint>" gasLimit e.gcGasRemaining))
    else
      (s3, none)

/-- Engine-call events, used to state where GC checkpoints are forced. -/
inductive Ev where
  | gcCheckpoint
  | evalScript
  | dvEncode
  | jsonStringify
deriving DecidableEq, Repr

/-- Outcomes of the engine calls made by one `qjs_det_eval`: the pre-execution
`JS_RunGCCheckpoint`, `JS_Eval`, `JS_EncodeDV` (with the encoded bytes
`dvData` on success), the post-execution `JS_RunGCCheckpoint`, and the final
`JS_GetGasRemaining`. -/
structure EvalEngine where
  gc1Ok : Bool
  gc1ExcMsg : Option String
  gc1GasRemaining : Nat
  evalOk : Bool
  evalExcMsg : Option String
  evalGasRemaining : Nat
  encodeOk : Bool
  encodeExcMsg : Option String
  encodeGasRemaining : Nat
  dvData : List Nat
  gc2Ok : Bool
  gc2ExcMsg : Option String
  gc2GasRemaining : Nat
  finalGasRemaining : Nat
deriving Repr

/-- `qjs_det_eval` from `quickjs_wasm.c`.  Returns the globals after the call
(the function assigns to none of them), the sequence of engine events
performed, and the output string.  Control flow mirrors the C: uninitialized
check, pre GC checkpoint, eval, DV encode, post GC checkpoint, hex result. -/
def qjs_det_eval (e : EvalEngine) (s : WasmGlobals) :
    WasmGlobals × List Ev × String :=
  if !s.detCtx || !s.detRt then
    (s, [], "ERROR <uninitialized> GAS remaining=0 used=0")
  else if !e.gc1Ok then
    (s, [Ev.gcCheckpoint],
      format_exception e.gc1ExcMsg "<gc checkpoint>" s.detGasLimit e.gc1GasRemaining)
  else if !e.evalOk then
    (s, [Ev.gcCheckpoint, Ev.evalScript],
      format_exception e.evalExcMsg "<exception>" s.detGasLimit e.evalGasRemaining)
  else if !e.encodeOk then
    (s, [Ev.gcCheckpoint, Ev.evalScript, Ev.dvEncode],
      format_exception e.encodeExcMsg "<dv encode>" s.detGasLimit e.encodeGasRemaining)
  else if !e.gc2Ok then
    (s, [Ev.gcCheckpoint, Ev.evalScript, Ev.dvEncode, Ev.gcCheckpoint],
      format_exception e.gc2ExcMsg "<gc checkpoint>" s.detGasLimit e.gc2GasRemaining)
  else
    (s, [Ev.gcCheckpoint, Ev.evalScript, Ev.dvEncode, Ev.gcCheckpoint],
      format_with_gas "RESULT" (String.mk (hex_bytes e.dvData)) s.detGasLimit
        e.finalGasRemaining)

/-- `qjs_det_set_gas_limit` from `quickjs_wasm.c`: `-1` when uninitialized,
otherwise records the new limit (and forwards it to `JS_SetGasLimit`). -/
def qjs_det_set_gas_limit (gasLimit : Nat) (s : WasmGlobals) : WasmGlobals × Int :=
  if !s.detCtx || !s.detRt then (s, -1)
  else ({ s with detGasLimit := gasLimit }, 0)

/-- `qjs_det_free` from `quickjs_wasm.c`. -/
def qjs_det_free (s : WasmGlobals) : WasmGlobals := free_det_runtime s

/-- `qjs_det_enable_tape` from `quickjs_wasm.c`: `-1` when uninitialized,
otherwise the return of the engine call `JS_EnableHostTape`. -/
def qjs_det_enable_tape (enableTapeRc : Int) (s : WasmGlobals) : Int :=
  if !s.detCtx || !s.detRt then -1 else enableTapeRc

/-- `qjs_det_enable_trace` from `quickjs_wasm.c`: `-1` when uninitialized or
when `JS_EnableGasTrace` fails, `-1` when enabling and `JS_ResetGasTrace`
fails, `0` otherwise. -/
def qjs_det_enable_trace (enableOk resetOk : Bool) (enabled : Bool)
    (s : WasmGlobals) : Int :=
  if !s.detCtx || !s.detRt then -1
  else if !enableOk then -1
  else if enabled && !resetOk then -1
  else 0

/-- Outcomes of the engine calls made by `qjs_det_read_tape` on an initialized
context: `tapeLength` is `JS_GetHostTapeLength`, and `jsonOut` is the result
of the record-array construction plus `JS_JSONStringify` (all engine calls),
with `none` standing for any failure in that construction. -/
structure TapeReadEngine where
  tapeLength : Nat
  jsonOut : Option String
deriving Repr

/-- `qjs_det_read_tape` from `quickjs_wasm.c`.  On an uninitialized context it
returns the string `"[]"`; with an empty tape it returns `"[]"`; otherwise it
returns the JSON built from the records, falling back to `"[]"` on any
construction failure. -/
def qjs_det_read_tape (e : TapeReadEngine) (s : WasmGlobals) : String :=
  if !s.detCtx || !s.detRt then "[]"
  else if e.tapeLength = 0 then "[]"
  else e.jsonOut.getD "[]"

/-- `JSGasTrace` from the engine headers: the nine trace counters. -/
structure JSGasTrace where
  opcode_count : Nat
  opcode_gas : Nat
  builtin_array_cb_base_count : Nat
  builtin_array_cb_base_gas : Nat
  builtin_array_cb_per_element_count : Nat
  builtin_array_cb_per_element_gas : Nat
  allocation_count : Nat
  allocation_bytes : Nat
  allocation_gas : Nat
deriving DecidableEq, Repr

/-- The all-zero trace (`JSGasTrace trace = {0}` in the C). -/
def zeroGasTrace : JSGasTrace := ⟨0, 0, 0, 0, 0, 0, 0, 0, 0⟩

/-- The JSON shape printed by `qjs_det_read_trace`. -/
def trace_json (t : JSGasTrace) : String :=
  "\x7b\"opcodeCount\":\"" ++ toString t.opcode_count ++
    "\",\"opcodeGas\":\"" ++ toString t.opcode_gas ++
    "\",\"arrayCbBaseCount\":\"" ++ toString t.builtin_array_cb_base_count ++
    "\",\"arrayCbBaseGas\":\"" ++ toString t.builtin_array_cb_base_gas ++
    "\",\"arrayCbPerElCount\":\"" ++ toString t.builtin_array_cb_per_element_count ++
    "\",\"arrayCbPerElGas\":\"" ++ toString t.builtin_array_cb_per_element_gas ++
    "\",\"allocationCount\":\"" ++ toString t.allocation_count ++
    "\",\"allocationBytes\":\"" ++ toString t.allocation_bytes ++
    "\",\"allocationGas\":\"" ++ toString t.allocation_gas ++ "\"\x7d"

/-- `qjs_det_read_trace` from `quickjs_wasm.c`: the trace starts zeroed, is
filled by `JS_ReadGasTrace` only when the context is initialized and the read
succeeds (`readOk`, with `tr` the counters read), and is rendered as JSON
unconditionally. -/
def qjs_det_read_trace (readOk : Bool) (tr : JSGasTrace) (s : WasmGlobals) : String :=
  let t := if s.detCtx && s.detRt && readOk then tr else zeroGasTrace
  trace_json t

/-- `wasm_host_call` from `quickjs_wasm.c`: the dispatcher installed by
`qjs_det_init`.  `hostCall` is the imported `host_call` function (abstract:
the embedder's handler, closed over the response buffer).  The returned `Bool`
records whether the import was invoked. -/
def wasm_host_call (hostCall : Nat → Option (List Nat) → Nat → Nat → Nat)
    (fnId : Nat) (reqPtr : Option (List Nat)) (reqLen : Nat)
    (respCapacity : Nat) : Bool × Nat :=
  if reqPtr.isNone && decide (0 < reqLen) then
    (false, JS_HOST_CALL_TRANSPORT_ERROR)
  else
    (true, hostCall fnId reqPtr reqLen respCapacity)

/-- `hex_value` from `harness.c`: digit value of a hex character, `-1` for
anything else. -/
def hex_value (c : Char) : Int :=
  if '0' ≤ c ∧ c ≤ '9' then (c.toNat : Int) - ('0'.toNat : Int)
  else if 'a' ≤ c ∧ c ≤ 'f' then 10 + ((c.toNat : Int) - ('a'.toNat : Int))
  else if 'A' ≤ c ∧ c ≤ 'F' then 10 + ((c.toNat : Int) - ('A'.toNat : Int))
  else -1

/-- The whitespace characters `parse_hex_string` skips. -/
def isHexSpace (c : Char) : Bool :=
  c = ' ' || c = '\n' || c = '\r' || c = '\t'

/-- The second pass of `parse_hex_string`: consume the non-space characters
two at a time, building `(pending << 4) | value` bytes. -/
def pairHexDigits : List Char → Option (List Nat)
  | [] => some []
  | c1 :: c2 :: rest =>
    let hi := hex_value c1
    let lo := hex_value c2
    if hi < 0 || lo < 0 then none
    else
      match pairHexDigits rest with
      | none => none
      | some tl => some ((hi.toNat * 16 + lo.toNat) :: tl)
  | [_] => none

/-- `parse_hex_string` from `harness.c`: whitespace is skipped; any non-hex
character is an error; an odd number of hex digits is an error; otherwise the
digits are paired into bytes.  (The C makes one validation/counting pass and
one pairing pass over the same characters; the two passes are fused here.) -/
def parse_hex_string (hex : List Char) : Option (List Nat) :=
  let digits := hex.filter (fun c => !isHexSpace c)
  if digits.any (fun c => decide (hex_value c < 0)) then none
  else if digits.length % 2 ≠ 0 then none
  else pairHexDigits digits

/-- Values of the engine's object model, as far as the harness dispatcher
inspects them: the dispatcher DV-decodes a request into a value, looks at
arrays, strings and property 0, and builds envelope objects from string,
number and null leaves. -/
inductive HVal where
  | vnull
  | vundef
  | vbool (b : Bool)
  | vnum (n : Nat)
  | vstr (s : String)
  | varr (elems : List HVal)
  | vobj (fields : List (String × HVal))

/-- The envelope object built by `harness_manifest_host_call`: property "err"
(an object with property "code") when an error code was selected, otherwise
property "ok"; then property "units". -/
def manifestEnvelope (errorCode : Option String) (okVal : HVal) (units : Nat) : HVal :=
  match errorCode with
  | some code =>
    HVal.vobj [("err", HVal.vobj [("code", HVal.vstr code)]), ("units", HVal.vnum units)]
  | none => HVal.vobj [("ok", okVal), ("units", HVal.vnum units)]

/-- The structured-error envelope for code `NOT_FOUND` with `units = 2`. -/
def notFoundEnvelope : HVal :=
  manifestEnvelope (some "NOT_FOUND") HVal.vundef 2

/-- `harness_manifest_host_call` from `harness.c`.  `decodeDV` / `encodeDV`
are `JS_DecodeDV` / `JS_EncodeDV` (engine code not under `src/`; modelled from
the spec as a partial canonical codec).  Returns the bytes written to the
response buffer, or `none` for the `JS_HOST_CALL_TRANSPORT_ERROR` return.
Control flow mirrors the C: decode, require an array, read property 0
(undefined when absent), handle fn ids 1/2 (string argument; "missing" ->
NOT_FOUND/units 2, "limit" -> LIMIT_EXCEEDED/units 3, otherwise echo the
string as `ok` with the default units 1) and fn id 3 (`ok: null`, units 0),
encode the envelope, and copy it out only if it fits the capacity. -/
def harness_manifest_host_call
    (decodeDV : List Nat → Option HVal) (encodeDV : HVal → Option (List Nat))
    (fnId : Nat) (req : List Nat) (respCapacity : Nat) : Option (List Nat) :=
  match decodeDV req with
  | none => none
  | some reqVal =>
    match reqVal with
    | HVal.varr elems =>
      let arg0 := elems.headD HVal.vundef
      if fnId = 1 ∨ fnId = 2 then
        match arg0 with
        | HVal.vstr path =>
          let errorCode : Option String :=
            if path = "missing" then some "NOT_FOUND"
            else if path = "limit" then some "LIMIT_EXCEEDED"
            else none
          let units : Nat :=
            if path = "missing" then 2
            else if path = "limit" then 3
            else 1
          match encodeDV (manifestEnvelope errorCode (HVal.vstr path) units) with
          | none => none
          | some bytes => if bytes.length ≤ respCapacity then some bytes else none
        | _ => none
      else if fnId = 3 then
        match encodeDV (manifestEnvelope none HVal.vnull 0) with
        | none => none
        | some bytes => if bytes.length ≤ respCapacity then some bytes else none
      else none
    | _ => none

/-- `HostStubConfig` from `harness.c` (`mode` 0 = echo, 1 = manifest). -/
structure HostStubConfig where
  mode : Nat
  triggerReentrancy : Bool
  triggerException : Bool
deriving Repr

/-- What a dispatcher invocation produces: the `uint32` return value, the
bytes written to the response buffer, and whether an exception is pending on
the context afterwards. -/
structure HostDispatchResult where
  ret : Nat
  respBytes : List Nat
  excPending : Bool
deriving Repr

/-- Modelled from the spec: `JS_HostCall` (engine code not under `src/`)
invoked "while one is already in flight on the same context" must "detect
this and raise a reentrancy exception"; the nested call never receives a
successful result.  Returns the `int` result code and whether an exception is
pending afterwards.  The size arguments are those the reentrancy stub
computes; the guard fires before they are used. -/
def jsHostCallNested (inFlight : Bool) (_fnId : Nat) (_req : List Nat)
    (_maxReq _maxResp : Nat) : Int × Bool :=
  if inFlight then (-1, true) else (0, false)

/-- `harness_host_call` from `harness.c`: the dispatcher registered by
`init_runtime`.  `inFlight` records whether a host call is already executing
on the context (true whenever the engine invokes this dispatcher);
`excPending` is the context's pending-exception flag on entry.  The
reentrancy stub re-enters `JS_HostCall` with widened size bounds, throws
`host_call is already in progress` if the nested call left no exception, and
returns the transport-error sentinel; the exception stub throws and returns
`req_len`; manifest mode delegates to `harness_manifest_host_call`; echo mode
copies the request into the response when it fits.  (Exceptions the engine
may leave pending inside the manifest dispatcher's codec calls are not
tracked; no claim depends on them.) -/
def harness_host_call
    (decodeDV : List Nat → Option HVal) (encodeDV : HVal → Option (List Nat))
    (inFlight : Bool) (config : Option HostStubConfig) (excPending : Bool)
    (fnId : Nat) (req : List Nat) (respCapacity : Nat) : HostDispatchResult :=
  let echo : HostDispatchResult :=
    if respCapacity < req.length then
      { ret := JS_HOST_CALL_TRANSPORT_ERROR, respBytes := [], excPending := excPending }
    else
      { ret := req.length, respBytes := req, excPending := excPending }
  match config with
  | none => echo
  | some cfg =>
    if cfg.triggerReentrancy then
      let maxReq0 := if 0 < req.length then req.length else 1
      let maxResp := if 0 < respCapacity then respCapacity else 1
      let maxReq := if maxReq0 < maxResp then maxResp else maxReq0
      let nested := jsHostCallNested inFlight fnId req maxReq maxResp
      let pendingAfterNested := excPending || nested.2
      let pendingFinal := if !pendingAfterNested then true else pendingAfterNested
      { ret := JS_HOST_CALL_TRANSPORT_ERROR, respBytes := [], excPending := pendingFinal }
    else if cfg.triggerException then
      { ret := req.length, respBytes := [], excPending := true }
    else if cfg.mode = 1 then
      match harness_manifest_host_call decodeDV encodeDV fnId req respCapacity with
      | some bytes =>
        { ret := bytes.length, respBytes := bytes, excPending := excPending }
      | none =>
        { ret := JS_HOST_CALL_TRANSPORT_ERROR, respBytes := [], excPending := excPending }
    else echo

/-- Outcomes of the engine calls made by one `eval_source` in `harness.c`:
the pre-execution `JS_RunGCCheckpoint`, `JS_Eval`, `JS_JSONStringify`,
`JS_ToCString`, and the post-execution `JS_RunGCCheckpoint`. -/
structure HarnessEvalEngine where
  gc1Ok : Bool
  evalOk : Bool
  stringifyOk : Bool
  toCStringOk : Bool
  gc2Ok : Bool
deriving Repr

/-- `eval_source` from `harness.c`: the sequence of engine events performed
and the function's return code.  A failing checkpoint prints the pending
exception and aborts with rc 1 (via `run_gc_checkpoint`/`print_exception`),
so the event list records where checkpoints run; on a script exception a
post checkpoint runs before the exception is printed. -/
def eval_source (e : HarnessEvalEngine) : List Ev × Nat :=
  if !e.gc1Ok then ([Ev.gcCheckpoint], 1)
  else if !e.evalOk then ([Ev.gcCheckpoint, Ev.evalScript, Ev.gcCheckpoint], 1)
  else if !e.stringifyOk then
    ([Ev.gcCheckpoint, Ev.evalScript, Ev.jsonStringify, Ev.gcCheckpoint], 1)
  else if !e.toCStringOk then
    ([Ev.gcCheckpoint, Ev.evalScript, Ev.jsonStringify], 1)
  else if !e.gc2Ok then
    ([Ev.gcCheckpoint, Ev.evalScript, Ev.jsonStringify, Ev.gcCheckpoint], 1)
  else ([Ev.gcCheckpoint, Ev.evalScript, Ev.jsonStringify, Ev.gcCheckpoint], 0)

/-- A digest function for concrete instantiations: every byte string digests
to the two-character string "00". -/
def trivDigest : List Nat → List Char := fun _ => ['0', '0']

/-- All engine calls of `qjs_det_init` succeed. -/
def initEngineOk : InitEngine := ⟨true, true, true, none, 0, true, none, 0⟩

/-- `JS_NewDeterministicRuntime` fails. -/
def initEngineNoRuntime : InitEngine := ⟨false, true, true, none, 0, true, none, 0⟩

/-- The post-initialization GC checkpoint of `qjs_det_init` fails. -/
def initEngineGcFail : InitEngine :=
  ⟨true, true, true, none, 0, false, some "gc corrupt", 40⟩

/-- All engine calls of `qjs_det_eval` succeed: the value encodes to the DV
byte `0x2a` and 900 gas remains. -/
def evalEngineOk : EvalEngine :=
  ⟨true, none, 0, true, none, 0, true, none, 0, [42], true, none, 0, 900⟩

/-- The pre-execution GC checkpoint of `qjs_det_eval` fails with message
`gc corrupt` and 50 gas remaining. -/
def evalEngineGcFail : EvalEngine :=
  ⟨false, some "gc corrupt", 50, true, none, 0, true, none, 0, [], true, none, 0, 0⟩

/-- The script evaluated by `qjs_det_eval` throws (`JS_Eval` yields an
exception with message `boom`, 800 gas remaining). -/
def evalEngineScriptThrows : EvalEngine :=
  ⟨true, none, 0, false, some "boom", 800, true, none, 0, [], true, none, 0, 0⟩

/-- A concrete DV decoder: the byte string `[0]` decodes to the one-element
array `["missing"]`; everything else is a decode error. -/
def demoDecode : List Nat → Option HVal :=
  fun b => if b = [0] then some (HVal.varr [HVal.vstr "missing"]) else none

/-- A concrete DV encoder mapping every value to the byte string `[9, 9]`. -/
def demoEncode : HVal → Option (List Nat) := fun _ => some [9, 9]

/-- A harness eval engine where every engine call succeeds. -/
def harnessEvalOk : HarnessEvalEngine := ⟨true, true, true, true, true⟩

/-- A harness eval engine where the script throws. -/
def harnessEvalThrows : HarnessEvalEngine := ⟨true, false, true, true, true⟩

theorem eval_on_uninitialized (e : EvalEngine) (s : WasmGlobals)
    (h : s.detCtx = false ∨ s.detRt = false) :
    (qjs_det_eval e s).2.2 = "ERROR <uninitialized> GAS remaining=0 used=0" := by
  rcases h with h | h <;> simp [qjs_det_eval, h]

theorem qjs_det_eval_fst (e : EvalEngine) (s : WasmGlobals) :
    (qjs_det_eval e s).1 = s := by
  unfold qjs_det_eval
  repeat' split
  all_goals rfl

theorem hexNibble_spec : ∀ n, n < 16 →
    isHexSpace (hexNibble n) = false ∧ hexNibble n ∈ HEX_DIGITS ∧
      hex_value (hexNibble n) = (n : Int) := by
  decide

theorem hex_bytes_length (b : List Nat) : (hex_bytes b).length = 2 * b.length := by
  induction b with
  | nil => rfl
  | cons x rest ih => simp [hex_bytes, ih]; omega

theorem hex_bytes_chars (b : List Nat) : ∀ c ∈ hex_bytes b, c ∈ HEX_DIGITS := by
  induction b with
  | nil => intro c hc; cases hc
  | cons x rest ih =>
    intro c hc
    simp only [hex_bytes, List.mem_cons] at hc
    rcases hc with hc | hc | hc
    · rw [hc]; exact (hexNibble_spec _ (Nat.mod_lt _ (by norm_num))).2.1
    · rw [hc]; exact (hexNibble_spec _ (Nat.mod_lt _ (by norm_num))).2.1
    · exact ih c hc

theorem hex_bytes_filter (b : List Nat) :
    (hex_bytes b).filter (fun c => !isHexSpace c) = hex_bytes b := by
  induction b with
  | nil => rfl
  | cons x rest ih =>
    simp [hex_bytes, List.filter,
      (hexNibble_spec _ (Nat.mod_lt (x / 16) (by norm_num))).1,
      (hexNibble_spec _ (Nat.mod_lt x (by norm_num))).1, ih]

theorem hex_bytes_no_bad (b : List Nat) :
    (hex_bytes b).any (fun c => decide (hex_value c < 0)) = false := by
  induction b with
  | nil => rfl
  | cons x rest ih =>
    have h1 := (hexNibble_spec ((x / 16) % 16) (Nat.mod_lt _ (by norm_num))).2.2
    have h2 := (hexNibble_spec (x % 16) (Nat.mod_lt _ (by norm_num))).2.2
    simp only [hex_bytes, List.any, ih, h1, h2, Bool.or_false]
    have hni1 : ¬ ((((x / 16) % 16 : Nat) : Int) < 0) := not_lt.mpr (Int.natCast_nonneg _)
    have hni2 : ¬ (((x % 16 : Nat) : Int) < 0) := not_lt.mpr (Int.natCast_nonneg _)
    simp [hni1, hni2]
    omega

theorem pairHexDigits_cons (c1 c2 : Char) (rest : List Char) (v1 v2 : Nat)
    (h1 : hex_value c1 = (v1 : Int)) (h2 : hex_value c2 = (v2 : Int)) :
    pairHexDigits (c1 :: c2 :: rest) =
      match pairHexDigits rest with
      | none => none
      | some tl => some ((v1 * 16 + v2) :: tl) := by
  have hni1 : ¬ ((v1 : Int) < 0) := not_lt.mpr (Int.natCast_nonneg _)
  have hni2 : ¬ ((v2 : Int) < 0) := not_lt.mpr (Int.natCast_nonneg _)
  simp only [pairHexDigits, h1, h2, decide_eq_false hni1, decide_eq_false hni2,
    Bool.or_false, if_false, Int.toNat_natCast]
  rfl

theorem pairHexDigits_hex_bytes (b : List Nat) (h : ∀ x ∈ b, x < 256) :
    pairHexDigits (hex_bytes b) = some b := by
  induction b with
  | nil => rfl
  | cons x rest ih =>
    have hx : x < 256 := h x (by simp)
    have ih2 := ih (fun y hy => h y (by simp [hy]))
    rw [hex_bytes, pairHexDigits_cons _ _ _ ((x / 16) % 16) (x % 16)
      (hexNibble_spec _ (Nat.mod_lt _ (by norm_num))).2.2
      (hexNibble_spec _ (Nat.mod_lt _ (by norm_num))).2.2]
    simp only [ih2]
    have hxx : (x / 16) % 16 * 16 + x % 16 = x := by omega
    simp [hxx]

/-- C9: hex round-trip — for every byte sequence `b`, `hex_bytes b` is a
`2·|b|`-character string of lowercase hexadecimal digits, and
`parse_hex_string` applied to it succeeds and returns exactly `b`. -/
theorem hex_roundtrip (b : List Nat) (h : ∀ x ∈ b, x < 256) :
    (hex_bytes b).length = 2 * b.length ∧
    (∀ c ∈ hex_bytes b, c ∈ HEX_DIGITS) ∧
    parse_hex_string (hex_bytes b) = some b := by
  refine ⟨hex_bytes_length b, hex_bytes_chars b, ?_⟩
  unfold parse_hex_string
  simp only [hex_bytes_filter, hex_bytes_no_bad, hex_bytes_length]
  have heven : 2 * b.length % 2 = 0 := by omega
  simp [heven, pairHexDigits_hex_bytes b h]

/-- Witness for `hex_roundtrip` at the bytes `[0, 77, 171, 255]`. -/
theorem hex_roundtrip_witness :
    (hex_bytes [0, 77, 171, 255]).length = 2 * [0, 77, 171, 255].length ∧
    (∀ c ∈ hex_bytes [0, 77, 171, 255], c ∈ HEX_DIGITS) ∧
    parse_hex_string (hex_bytes [0, 77, 171, 255]) = some [0, 77, 171, 255] :=
  hex_roundtrip [0, 77, 171, 255] (by decide)

/-- C10: `wasm_host_call` returns the transport-error sentinel without
invoking the imported `host_call` precisely on a NULL request pointer with a
strictly positive request length, and otherwise forwards the call to
`host_call` unchanged. -/
theorem wasm_host_call_null_request_guard
    (hostCall : Nat → Option (List Nat) → Nat → Nat → Nat)
    (fnId : Nat) (reqPtr : Option (List Nat)) (reqLen respCap : Nat) :
    (reqPtr = none ∧ 0 < reqLen →
      wasm_host_call hostCall fnId reqPtr reqLen respCap =
        (false, JS_HOST_CALL_TRANSPORT_ERROR)) ∧
    (¬ (reqPtr = none ∧ 0 < reqLen) →
      wasm_host_call hostCall fnId reqPtr reqLen respCap =
        (true, hostCall fnId reqPtr reqLen respCap)) := by
  constructor
  · rintro ⟨h1, h2⟩
    simp [wasm_host_call, h1, h2]
  · intro hn
    rcases reqPtr with _ | p
    · have hz : reqLen = 0 := by
        by_contra hne
        exact hn ⟨rfl, Nat.pos_of_ne_zero hne⟩
      simp [wasm_host_call, hz]
    · simp [wasm_host_call]

/-- Witness for `wasm_host_call_null_request_guard` at a NULL pointer with
request length 3 and at a non-NULL pointer. -/
theorem wasm_host_call_null_request_guard_witness :
    wasm_host_call (fun _ _ _ _ => 7) 1 none 3 8 =
      (false, JS_HOST_CALL_TRANSPORT_ERROR) ∧
    wasm_host_call (fun _ _ _ _ => 7) 1 (some [5]) 1 8 = (true, 7) :=
  ⟨(wasm_host_call_null_request_guard (fun _ _ _ _ => 7) 1 none 3 8).1
      ⟨rfl, by decide⟩,
    (wasm_host_call_null_request_guard (fun _ _ _ _ => 7) 1 (some [5]) 1 8).2
      (by simp)⟩

/-- C6: when the manifest-mode test dispatcher handles `fn_id = 1` with a
request that DV-decodes to an array whose first element is the string
`"missing"`, and the encoded envelope fits the response capacity, the
response written is exactly the encoding of the structured-error envelope
whose error code is `NOT_FOUND` and whose units field is 2. -/
theorem manifest_dispatcher_missing_not_found
    (decodeDV : List Nat → Option HVal) (encodeDV : HVal → Option (List Nat))
    (req : List Nat) (rest : List HVal) (bytes : List Nat) (cap : Nat)
    (hdec : decodeDV req = some (HVal.varr (HVal.vstr "missing" :: rest)))
    (henc : encodeDV notFoundEnvelope = some bytes)
    (hcap : bytes.length ≤ cap) :
    harness_manifest_host_call decodeDV encodeDV 1 req cap = some bytes := by
  have henc2 : encodeDV (manifestEnvelope (some "NOT_FOUND") (HVal.vstr "missing") 2) =
      some bytes := henc
  simp [harness_manifest_host_call, hdec, henc2, hcap]

/-- Witness for `manifest_dispatcher_missing_not_found` with the concrete
codec `demoDecode`/`demoEncode`. -/
theorem manifest_dispatcher_missing_not_found_witness :
    demoDecode [0] = some (HVal.varr (HVal.vstr "missing" :: [])) ∧
    demoEncode notFoundEnvelope = some [9, 9] ∧
    harness_manifest_host_call demoDecode demoEncode 1 [0] 2 = some [9, 9] :=
  ⟨rfl, rfl,
    manifest_dispatcher_missing_not_found demoDecode demoEncode [0] [] [9, 9] 2
      rfl rfl (by decide)⟩

/-- C7: in echo mode (mode 0, no trigger flags), for every request whose
length is a valid length (the sentinel is "not a valid length"),
`harness_host_call` returns the transport-error sentinel exactly when the
request length exceeds the response buffer capacity; otherwise it returns
the request length and the response bytes equal the request bytes. -/
theorem echo_dispatch_length_contract
    (decodeDV : List Nat → Option HVal) (encodeDV : HVal → Option (List Nat))
    (inFlight excP : Bool) (fnId : Nat) (req : List Nat) (cap : Nat)
    (hlen : req.length < JS_HOST_CALL_TRANSPORT_ERROR) :
    ((harness_host_call decodeDV encodeDV inFlight (some ⟨0, false, false⟩)
        excP fnId req cap).ret = JS_HOST_CALL_TRANSPORT_ERROR ↔ cap < req.length) ∧
    (req.length ≤ cap →
      (harness_host_call decodeDV encodeDV inFlight (some ⟨0, false, false⟩)
          excP fnId req cap).ret = req.length ∧
      (harness_host_call decodeDV encodeDV inFlight (some ⟨0, false, false⟩)
          excP fnId req cap).respBytes = req) := by
  by_cases hlt : cap < req.length
  · refine ⟨?_, fun hle => absurd hlt (by omega)⟩
    simp [harness_host_call, hlt]
  · constructor
    · simp [harness_host_call, hlt, Nat.ne_of_lt hlen]
    · intro hle
      simp [harness_host_call, hlt]

/-- Witness for `echo_dispatch_length_contract`: a 2-byte request against
capacity 4 echoes, and against capacity 1 yields the sentinel. -/
theorem echo_dispatch_length_contract_witness :
    ((harness_host_call demoDecode demoEncode true (some ⟨0, false, false⟩)
        false 1 [3, 4] 4).ret = JS_HOST_CALL_TRANSPORT_ERROR ↔ 4 < [3, 4].length) ∧
    ((harness_host_call demoDecode demoEncode true (some ⟨0, false, false⟩)
        false 1 [3, 4] 4).ret = [3, 4].length ∧
      (harness_host_call demoDecode demoEncode true (some ⟨0, false, false⟩)
          false 1 [3, 4] 4).respBytes = [3, 4]) :=
  ⟨(echo_dispatch_length_contract demoDecode demoEncode true false 1 [3, 4] 4
      (by decide)).1,
    (echo_dispatch_length_contract demoDecode demoEncode true false 1 [3, 4] 4
      (by decide)).2 (by decide)⟩

/-- C8: a nested `JS_HostCall` made while a host call is already in flight
never yields a successful result — it fails and raises the reentrancy
exception — and the harness reentrancy stub, after attempting the nested
call, leaves an exception pending on the context and returns the
transport-error sentinel. -/
theorem reentrant_host_call_raises
    (decodeDV : List Nat → Option HVal) (encodeDV : HVal → Option (List Nat))
    (cfg : HostStubConfig) (excP : Bool) (fnId : Nat) (req : List Nat)
    (cap maxReq maxResp : Nat)
    (hre : cfg.triggerReentrancy = true) :
    ((jsHostCallNested true fnId req maxReq maxResp).1 ≠ 0 ∧
      (jsHostCallNested true fnId req maxReq maxResp).2 = true) ∧
    (harness_host_call decodeDV encodeDV true (some cfg) excP fnId req cap).excPending
        = true ∧
    (harness_host_call decodeDV encodeDV true (some cfg) excP fnId req cap).ret =
      JS_HOST_CALL_TRANSPORT_ERROR := by
  refine ⟨⟨by simp [jsHostCallNested], by simp [jsHostCallNested]⟩, ?_, ?_⟩ <;>
    simp [harness_host_call, hre, jsHostCallNested]

/-- Witness for `reentrant_host_call_raises` with the reentrancy-triggering
stub configuration. -/
theorem reentrant_host_call_raises_witness :
    ((jsHostCallNested true 1 [7] 4 4).1 ≠ 0 ∧
      (jsHostCallNested true 1 [7] 4 4).2 = true) ∧
    (harness_host_call demoDecode demoEncode true (some ⟨0, true, false⟩)
        false 1 [7] 4).excPending = true ∧
    (harness_host_call demoDecode demoEncode true (some ⟨0, true, false⟩)
        false 1 [7] 4).ret = JS_HOST_CALL_TRANSPORT_ERROR :=
  reentrant_host_call_raises demoDecode demoEncode ⟨0, true, false⟩ false 1 [7] 4 4 4 rfl

/-- C1 (amended): on a freed or never-initialized context, `qjs_det_eval`
fails with the uninitialized-context error and `qjs_det_set_gas_limit`,
`qjs_det_enable_tape` and `qjs_det_enable_trace` fail with `-1`; but
`qjs_det_read_tape` returns the normal-looking empty-tape result `"[]"`
and `qjs_det_read_trace` returns the normal-looking all-zero trace object,
not an uninitialized-context error. -/
theorem uninitialized_context_op_results (s : WasmGlobals)
    (h : s.detCtx = false ∨ s.detRt = false)
    (e : EvalEngine) (g : Nat) (rc : Int) (eo ro en rOk : Bool)
    (te : TapeReadEngine) (tr : JSGasTrace) :
    (qjs_det_eval e s).2.2 = "ERROR <uninitialized> GAS remaining=0 used=0" ∧
    (qjs_det_set_gas_limit g s).2 = -1 ∧
    qjs_det_enable_tape rc s = -1 ∧
    qjs_det_enable_trace eo ro en s = -1 ∧
    qjs_det_read_tape te s = "[]" ∧
    qjs_det_read_trace rOk tr s = trace_json zeroGasTrace := by
  refine ⟨eval_on_uninitialized e s h, ?_, ?_, ?_, ?_, ?_⟩ <;>
    rcases h with h | h <;>
      simp [qjs_det_set_gas_limit, qjs_det_enable_tape, qjs_det_enable_trace,
        qjs_det_read_tape, qjs_det_read_trace, h]

/-- Witness for `uninitialized_context_op_results` on the state left by
`qjs_det_free`. -/
theorem uninitialized_context_op_results_witness :
    (qjs_det_eval evalEngineOk (qjs_det_free ⟨true, true, 1000⟩)).2.2 =
      "ERROR <uninitialized> GAS remaining=0 used=0" ∧
    (qjs_det_set_gas_limit 5 (qjs_det_free ⟨true, true, 1000⟩)).2 = -1 ∧
    qjs_det_enable_tape 0 (qjs_det_free ⟨true, true, 1000⟩) = -1 ∧
    qjs_det_enable_trace true true true (qjs_det_free ⟨true, true, 1000⟩) = -1 ∧
    qjs_det_read_tape ⟨0, none⟩ (qjs_det_free ⟨true, true, 1000⟩) = "[]" ∧
    qjs_det_read_trace true zeroGasTrace (qjs_det_free ⟨true, true, 1000⟩) =
      trace_json zeroGasTrace :=
  uninitialized_context_op_results (qjs_det_free ⟨true, true, 1000⟩)
    (Or.inl rfl) evalEngineOk 5 0 true true true true ⟨0, none⟩ zeroGasTrace

/-- C1 (counterexample): `qjs_det_read_tape` called after `qjs_det_free` does
not fail with an uninitialized-context error — it returns `"[]"`, exactly
the output of a successfully initialized context whose tape is empty, and
`qjs_det_read_trace` likewise returns the same all-zero trace object that
an initialized context with fresh counters returns. -/
theorem read_tape_after_free_looks_normal :
    qjs_det_read_tape ⟨0, none⟩ (qjs_det_free ⟨true, true, 1000⟩) = "[]" ∧
    qjs_det_read_tape ⟨0, none⟩ ⟨true, true, 1000⟩ = "[]" ∧
    qjs_det_read_trace true zeroGasTrace (qjs_det_free ⟨true, true, 1000⟩) =
      qjs_det_read_trace true zeroGasTrace ⟨true, true, 1000⟩ :=
  ⟨rfl, rfl, rfl⟩

/-- C2 (counterexample): on an initialized context, when the script throws,
`qjs_det_eval` performs only the pre-execution GC checkpoint — its engine
event trace is `[gcCheckpoint, evalScript]`, with no checkpoint forced
after execution ends in the script exception. -/
theorem det_eval_exception_skips_post_checkpoint :
    (qjs_det_eval evalEngineScriptThrows ⟨true, true, 1000⟩).2.1 =
      [Ev.gcCheckpoint, Ev.evalScript] ∧
    ((qjs_det_eval evalEngineScriptThrows ⟨true, true, 1000⟩).2.1.count
        Ev.gcCheckpoint) = 1 := by
  refine ⟨rfl, by decide⟩

/-- C2 (amended): `eval_source` forces a GC checkpoint before execution and
another after execution both on the successful path and when the script
throws; `qjs_det_eval` forces a checkpoint before execution and another
after execution on the successful path, but on a script exception it
returns immediately after `JS_Eval` with no post-execution checkpoint. -/
theorem gc_checkpoint_placement (s : WasmGlobals)
    (hc : s.detCtx = true) (hr : s.detRt = true)
    (e : EvalEngine) (he : HarnessEvalEngine) :
    (e.gc1Ok = true → e.evalOk = true → e.encodeOk = true →
      (qjs_det_eval e s).2.1 =
        [Ev.gcCheckpoint, Ev.evalScript, Ev.dvEncode, Ev.gcCheckpoint]) ∧
    (e.gc1Ok = true → e.evalOk = false →
      (qjs_det_eval e s).2.1 = [Ev.gcCheckpoint, Ev.evalScript]) ∧
    (he.gc1Ok = true → he.evalOk = false →
      (eval_source he).1 = [Ev.gcCheckpoint, Ev.evalScript, Ev.gcCheckpoint]) ∧
    (he.gc1Ok = true → he.evalOk = true → he.stringifyOk = true →
      he.toCStringOk = true →
      (eval_source he).1 =
        [Ev.gcCheckpoint, Ev.evalScript, Ev.jsonStringify, Ev.gcCheckpoint]) := by
  refine ⟨?_, ?_, ?_, ?_⟩
  · intro h1 h2 h3
    cases hg : e.gc2Ok <;> simp [qjs_det_eval, hc, hr, h1, h2, h3, hg]
  · intro h1 h2
    simp [qjs_det_eval, hc, hr, h1, h2]
  · intro h1 h2
    simp [eval_source, h1, h2]
  · intro h1 h2 h3 h4
    cases hg : he.gc2Ok <;> simp [eval_source, h1, h2, h3, h4, hg]

/-- Witness for `gc_checkpoint_placement` on an initialized context with the
concrete all-ok and script-throwing engines. -/
theorem gc_checkpoint_placement_witness :
    (qjs_det_eval evalEngineOk ⟨true, true, 1000⟩).2.1 =
      [Ev.gcCheckpoint, Ev.evalScript, Ev.dvEncode, Ev.gcCheckpoint] ∧
    (qjs_det_eval evalEngineScriptThrows ⟨true, true, 1000⟩).2.1 =
      [Ev.gcCheckpoint, Ev.evalScript] ∧
    (eval_source harnessEvalThrows).1 =
      [Ev.gcCheckpoint, Ev.evalScript, Ev.gcCheckpoint] ∧
    (eval_source harnessEvalOk).1 =
      [Ev.gcCheckpoint, Ev.evalScript, Ev.jsonStringify, Ev.gcCheckpoint] :=
  ⟨(gc_checkpoint_placement ⟨true, true, 1000⟩ rfl rfl evalEngineOk
      harnessEvalOk).1 rfl rfl rfl,
    (gc_checkpoint_placement ⟨true, true, 1000⟩ rfl rfl evalEngineScriptThrows
      harnessEvalThrows).2.1 rfl rfl,
    (gc_checkpoint_placement ⟨true, true, 1000⟩ rfl rfl evalEngineOk
      harnessEvalThrows).2.2.1 rfl rfl,
    (gc_checkpoint_placement ⟨true, true, 1000⟩ rfl rfl evalEngineOk
      harnessEvalOk).2.2.2 rfl rfl rfl rfl⟩

/-- C3: whenever `qjs_det_init` fails (returns an error string) — runtime
allocation failure, dispatcher registration failure, context
initialization failure, or failure of the post-initialization GC
checkpoint — no partial context is returned: both globals are NULL and an
immediately following `qjs_det_eval` fails with the uninitialized-context
error, whatever the engine does on that eval. -/
theorem init_failure_no_partial_context
    (digest : List Nat → List Char) (manifest : Option (List Nat))
    (hashHex : List Char) (gasLimit : Nat) (e : InitEngine) (s : WasmGlobals)
    (err : String)
    (h : (qjs_det_init digest manifest hashHex gasLimit e s).2 = some err) :
    (qjs_det_init digest manifest hashHex gasLimit e s).1.detCtx = false ∧
    (qjs_det_init digest manifest hashHex gasLimit e s).1.detRt = false ∧
    ∀ ev : EvalEngine,
      (qjs_det_eval ev (qjs_det_init digest manifest hashHex gasLimit e s).1).2.2 =
        "ERROR <uninitialized> GAS remaining=0 used=0" := by
  obtain ⟨nr, sd, io, im, ig, gcb, gm, gg⟩ := e
  have hstate :
      (qjs_det_init digest manifest hashHex gasLimit
          ⟨nr, sd, io, im, ig, gcb, gm, gg⟩ s).1.detCtx = false ∧
      (qjs_det_init digest manifest hashHex gasLimit
          ⟨nr, sd, io, im, ig, gcb, gm, gg⟩ s).1.detRt = false := by
    cases nr <;> cases sd <;> cases gcb <;>
      cases hi : initDeterministicContextOk digest manifest hashHex io <;>
        simp_all [qjs_det_init, free_det_runtime]
  exact ⟨hstate.1, hstate.2, fun ev => eval_on_uninitialized ev _ (Or.inl hstate.1)⟩

/-- Witness for `init_failure_no_partial_context` when runtime creation
fails. -/
theorem init_failure_no_partial_context_witness :
    (qjs_det_init trivDigest none [] 7 initEngineNoRuntime initialWasmGlobals).1.detCtx
        = false ∧
    (qjs_det_init trivDigest none [] 7 initEngineNoRuntime initialWasmGlobals).1.detRt
        = false ∧
    ∀ ev : EvalEngine,
      (qjs_det_eval ev
          (qjs_det_init trivDigest none [] 7 initEngineNoRuntime
            initialWasmGlobals).1).2.2 =
        "ERROR <uninitialized> GAS remaining=0 used=0" :=
  init_failure_no_partial_context trivDigest none [] 7 initEngineNoRuntime
    initialWasmGlobals "ERROR <init> GAS remaining=0 used=0" rfl

/-- C4 (counterexample): after a successful `qjs_det_init`, a GC-checkpoint
failure inside `qjs_det_eval` reports an error string, yet the globals are
unchanged and the very next `qjs_det_eval` on the same context runs all its
engine steps and returns a normal RESULT — the context is not treated as
non-recoverable and subsequent operations do not fail fast. -/
theorem gc_failure_then_normal_eval :
    (qjs_det_init trivDigest none [] 1000 initEngineOk initialWasmGlobals).2 = none ∧
    (qjs_det_init trivDigest none [] 1000 initEngineOk initialWasmGlobals).1 =
      ⟨true, true, 1000⟩ ∧
    (qjs_det_eval evalEngineGcFail ⟨true, true, 1000⟩).2.2 =
      "ERROR gc corrupt GAS remaining=50 used=950" ∧
    (qjs_det_eval evalEngineGcFail ⟨true, true, 1000⟩).1 = ⟨true, true, 1000⟩ ∧
    (qjs_det_eval evalEngineOk ⟨true, true, 1000⟩).2.1 =
      [Ev.gcCheckpoint, Ev.evalScript, Ev.dvEncode, Ev.gcCheckpoint] ∧
    (qjs_det_eval evalEngineOk ⟨true, true, 1000⟩).2.2 =
      "RESULT 2a GAS remaining=900 used=100" := by
  refine ⟨rfl, rfl, ?_, rfl, rfl, ?_⟩ <;> decide

/-- C4 (amended): a GC-checkpoint failure during `qjs_det_init` frees the
runtime and context, so subsequent operations fail fast with the
uninitialized-context error; but a GC-checkpoint failure inside
`qjs_det_eval` only reports an error — `qjs_det_eval` never changes the
globals, so the context stays initialized and subsequent operations execute
normally rather than failing fast. -/
theorem gc_checkpoint_failure_policy
    (digest : List Nat → List Char) (manifest : Option (List Nat))
    (hashHex : List Char) (gasLimit : Nat) (e : InitEngine) (s : WasmGlobals)
    (hn : e.newRuntimeOk = true) (hd : e.setDispatcherOk = true)
    (hi : initDeterministicContextOk digest manifest hashHex e.initOtherOk = true)
    (hg : e.gcOk = false) (e2 : EvalEngine) (s2 : WasmGlobals) :
    (qjs_det_init digest manifest hashHex gasLimit e s).1.detCtx = false ∧
    (∀ ev : EvalEngine,
      (qjs_det_eval ev (qjs_det_init digest manifest hashHex gasLimit e s).1).2.2 =
        "ERROR <uninitialized> GAS remaining=0 used=0") ∧
    (qjs_det_eval e2 s2).1 = s2 := by
  have hstate : (qjs_det_init digest manifest hashHex gasLimit e s).1.detCtx = false := by
    simp [qjs_det_init, hn, hd, hi, hg, free_det_runtime]
  exact ⟨hstate, fun ev => eval_on_uninitialized ev _ (Or.inl hstate),
    qjs_det_eval_fst e2 s2⟩

/-- Witness for `gc_checkpoint_failure_policy` with the engine whose
post-initialization checkpoint fails. -/
theorem gc_checkpoint_failure_policy_witness :
    (qjs_det_init trivDigest none [] 1000 initEngineGcFail
        initialWasmGlobals).1.detCtx = false ∧
    (∀ ev : EvalEngine,
      (qjs_det_eval ev
          (qjs_det_init trivDigest none [] 1000 initEngineGcFail
            initialWasmGlobals).1).2.2 =
        "ERROR <uninitialized> GAS remaining=0 used=0") ∧
    (qjs_det_eval evalEngineGcFail ⟨true, true, 1000⟩).1 = ⟨true, true, 1000⟩ :=
  gc_checkpoint_failure_policy trivDigest none [] 1000 initEngineGcFail
    initialWasmGlobals rfl rfl rfl rfl evalEngineGcFail ⟨true, true, 1000⟩

/-- C5: for every manifest byte string and every supplied hash that does not
match the digest of those bytes (hex compared case-insensitively),
`qjs_det_init` always fails with an error and never yields a usable
context: no context remains and a following `qjs_det_eval` fails with the
uninitialized-context error. -/
theorem manifest_hash_mismatch_fails_init
    (digest : List Nat → List Char) (bytes : List Nat) (hashHex : List Char)
    (gasLimit : Nat) (e : InitEngine) (s : WasmGlobals)
    (h : hexEqCI hashHex (digest bytes) = false) :
    (qjs_det_init digest (some bytes) hashHex gasLimit e s).2 ≠ none ∧
    (qjs_det_init digest (some bytes) hashHex gasLimit e s).1.detCtx = false ∧
    ∀ ev : EvalEngine,
      (qjs_det_eval ev (qjs_det_init digest (some bytes) hashHex gasLimit e s).1).2.2 =
        "ERROR <uninitialized> GAS remaining=0 used=0" := by
  obtain ⟨nr, sd, io, im, ig, gcb, gm, gg⟩ := e
  have hio : initDeterministicContextOk digest (some bytes) hashHex io = false := by
    simp [initDeterministicContextOk, h]
  have hmain :
      (qjs_det_init digest (some bytes) hashHex gasLimit
          ⟨nr, sd, io, im, ig, gcb, gm, gg⟩ s).2 ≠ none ∧
      (qjs_det_init digest (some bytes) hashHex gasLimit
          ⟨nr, sd, io, im, ig, gcb, gm, gg⟩ s).1.detCtx = false := by
    cases nr <;> cases sd <;> simp [qjs_det_init, hio, free_det_runtime]
  exact ⟨hmain.1, hmain.2, fun ev => eval_on_uninitialized ev _ (Or.inl hmain.2)⟩

/-- Witness for `manifest_hash_mismatch_fails_init`: the digest of `[1, 2]`
under `trivDigest` is `"00"`, which does not match the supplied hash
`"ff"`. -/
theorem manifest_hash_mismatch_fails_init_witness :
    (qjs_det_init trivDigest (some [1, 2]) ['f', 'f'] 1000 initEngineOk
        initialWasmGlobals).2 ≠ none ∧
    (qjs_det_init trivDigest (some [1, 2]) ['f', 'f'] 1000 initEngineOk
        initialWasmGlobals).1.detCtx = false ∧
    ∀ ev : EvalEngine,
      (qjs_det_eval ev
          (qjs_det_init trivDigest (some [1, 2]) ['f', 'f'] 1000 initEngineOk
            initialWasmGlobals).1).2.2 =
        "ERROR <uninitialized> GAS remaining=0 used=0" :=
  manifest_hash_mismatch_fails_init trivDigest [1, 2] ['f', 'f'] 1000 initEngineOk
    initialWasmGlobals (by decide)
